import Mathlib

/-!
# Verification of the admin dashboard analytics aggregation

Shallow embedding of `src/backend/open_webui/routers/dashboard.py`.

Embedding conventions:

* Python floats are modelled as exact rationals (`ℚ`); the float literals
  `0.1`, `0.01`, `0.3` become `1/10`, `1/100`, `3/10`.  Python's
  `round(x, 2)` is modelled by `round2` below (round-half-up at two decimal
  places); Python rounds binary floats half-to-even, but no property below
  depends on midpoint behaviour.
* A file's JSON metadata (`file.meta`) is modelled by `Option MetaVal`:
  `none` for an absent (`None`/falsy) value, `MetaVal.notDict` for a present
  non-mapping value, and `MetaVal.dict ct sz` for a mapping with optional
  `content_type` string and optional numeric `size`.  Python's truthiness
  test `file.meta and isinstance(file.meta, dict)` rejects the empty dict,
  which behaves extensionally like `dict none none` (no key is found either
  way); a non-string `content_type` value never equals any of the four image
  media-type strings, so it behaves like a missing key.
* The SQLAlchemy store is modelled by lists of records held in `Store`;
  `db.query(T).filter(...).count()` / `.all()` become `List.filter` with
  `List.length`.  Fetch order of `Users.get_users` / `Groups.get_groups` is
  the order of the corresponding list.
* Python's stable `list.sort(key=..., reverse=True)` is modelled by
  `List.insertionSort` with the relation `key b ≤ key a`: a stable sort for
  a total preorder is unique, so any stable descending sort denotes the same
  list as CPython's Timsort here.
* The per-request `try/except Exception` wrappers are modelled with
  `Except`: `raise HTTPException(...)` inside the `try` body is an
  exceptional exit that the blanket `except Exception` handler also
  catches (in Python, `HTTPException` is a subclass of `Exception`).
-/

namespace Dashboard

/-- Python's `round(x, 2)`: round to two decimal places
(exact-rational model of the float operation). -/
def round2 (q : ℚ) : ℚ := ((round (q * 100) : ℤ) : ℚ) / 100

/-- A file's `meta` JSON value when it is present:
either not a mapping, or a mapping with optional
`content_type` and `size` entries (`dashboard.py` reads only those keys). -/
inductive MetaVal : Type
  | notDict : MetaVal
  | dict (content_type : Option String) (size : Option ℚ) : MetaVal
deriving DecidableEq

/-- The four media-type literals of `dashboard.py`
(lines 118, 173, 233, 314, 388, 450, 551). -/
def imageContentTypes : List String :=
  ["image/png", "image/jpeg", "image/gif", "image/webp"]

/-- The classifier: `file.meta and isinstance(file.meta, dict)` followed by
`file.meta.get('content_type', '') in [...]`. -/
def metaIsImage : Option MetaVal → Bool
  | some (MetaVal.dict (some ct) _) => imageContentTypes.contains ct
  | _ => false

/-- Declared size of a file's metadata in MB:
`file.meta['size'] / (1024 * 1024)` when
`file.meta and isinstance(file.meta, dict) and 'size' in file.meta`,
otherwise the accumulation step is skipped (contributes `0`). -/
def metaSizeMB : Option MetaVal → ℚ
  | some (MetaVal.dict _ (some size)) => size / (1024 * 1024)
  | _ => 0

structure UserRec : Type where
  id : String
  name : String
  email : String
  last_active_at : Int
deriving DecidableEq

structure GroupRec : Type where
  id : String
  name : String
  user_ids : List String
deriving DecidableEq

structure ChatRec : Type where
  user_id : String
  created_at : Int
deriving DecidableEq

structure FileRec : Type where
  user_id : String
  created_at : Int
  meta : Option MetaVal
deriving DecidableEq

structure KnowledgeRec : Type where
  user_id : String
  created_at : Int
deriving DecidableEq

/-- `created_at` on messages is in nanoseconds (`dashboard.py` line 558). -/
structure MessageRec : Type where
  user_id : String
  created_at : Int
deriving DecidableEq

/-- The external store, as the collector interface sees it.
List order is fetch order. -/
structure Store : Type where
  users : List UserRec
  groups : List GroupRec
  chats : List ChatRec
  files : List FileRec
  knowledge : List KnowledgeRec
  messages : List MessageRec
deriving DecidableEq

/-- `db.query(File).filter(File.user_id == uid).all()`. -/
def userFiles (s : Store) (uid : String) : List FileRec :=
  s.files.filter (fun f => f.user_id == uid)

/-- `db.query(Chat).filter(Chat.user_id == uid).count()`. -/
def userChatsCount (s : Store) (uid : String) : Nat :=
  (s.chats.filter (fun c => c.user_id == uid)).length

/-- `db.query(Knowledge).filter(Knowledge.user_id == uid).count()`. -/
def userKnowledgeCount (s : Store) (uid : String) : Nat :=
  (s.knowledge.filter (fun k => k.user_id == uid)).length

/-- `db.query(Message).filter(Message.user_id == uid).count()`. -/
def userMessagesCount (s : Store) (uid : String) : Nat :=
  (s.messages.filter (fun m => m.user_id == uid)).length

/-- The image-counting loop over a fetched file list
(`for file in ...: if ...content_type in [...]: count += 1`). -/
def countImages (fs : List FileRec) : Nat :=
  (fs.filter (fun f => metaIsImage f.meta)).length

/-- One step of the file-size accumulation loop:
`if file.meta and isinstance(file.meta, dict) and 'size' in file.meta:
   acc += file.meta['size'] / (1024 * 1024)`. -/
def addFileSize (acc : ℚ) (f : FileRec) : ℚ :=
  match f.meta with
  | some (MetaVal.dict _ (some size)) => acc + size / (1024 * 1024)
  | _ => acc

/-- The file-storage accumulation loop over a fetched file list, starting
from `0`. -/
def filesStorageOf (fs : List FileRec) : ℚ :=
  fs.foldl addFileSize 0

/-- A user's unrounded storage estimate (`user_storage_mb` before
`round(..., 2)`, `dashboard.py` lines 180-190 / 321-331): file sizes, then
`+= user_knowledge * 1`, `+= user_chats * 0.1`, `+= user_messages * 0.01`. -/
def userStorageMB (s : Store) (uid : String) : ℚ :=
  filesStorageOf (userFiles s uid)
    + (userKnowledgeCount s uid : ℚ) * 1
    + (userChatsCount s uid : ℚ) * (1 / 10)
    + (userMessagesCount s uid : ℚ) * (1 / 100)

structure UserStorageStats : Type where
  user_id : String
  user_name : String
  user_email : String
  total_chats : Nat
  total_files : Nat
  total_images : Nat
  total_knowledge : Nat
  total_messages : Nat
  storage_usage_mb : ℚ
  last_active : Int
deriving DecidableEq

/-- One entry of `user_stats` (`dashboard.py` lines 163-203 / 304-344):
per-user counts, image classification of the user's files, and the rounded
storage estimate. -/
def userStorageEntry (s : Store) (u : UserRec) : UserStorageStats :=
  { user_id := u.id
    user_name := u.name
    user_email := u.email
    total_chats := userChatsCount s u.id
    total_files := (userFiles s u.id).length
    total_images := countImages (userFiles s u.id)
    total_knowledge := userKnowledgeCount s u.id
    total_messages := userMessagesCount s u.id
    storage_usage_mb := round2 (userStorageMB s u.id)
    last_active := u.last_active_at }

/-- Stable descending sort by a key, modelling CPython's
`list.sort(key=..., reverse=True)`. -/
def sortKeyDesc {α β : Type} [LinearOrder β] (key : α → β) (l : List α) :
    List α :=
  l.insertionSort (fun a b => key b ≤ key a)

/-- `Users.get_users(limit=limit)`: the first `limit` users in fetch
order (all of them when no limit is given). -/
def takeLimit {α : Type} (limit : Option Nat) (l : List α) : List α :=
  match limit with
  | some n => l.take n
  | none => l

/-- The `/users/storage` endpoint body (`get_users_storage_stats`,
`dashboard.py` lines 300-348): fetch at most `limit` users, build their
entries, sort descending by `storage_usage_mb`. -/
def usersStorageStats (s : Store) (limit : Option Nat) :
    List UserStorageStats :=
  sortKeyDesc (fun e => e.storage_usage_mb)
    ((takeLimit limit s.users).map (userStorageEntry s))

structure GroupStats : Type where
  group_id : String
  group_name : String
  member_count : Nat
  total_chats : Nat
  total_files : Nat
  total_images : Nat
  total_knowledge : Nat
  total_messages : Nat
  storage_usage_mb : ℚ
deriving DecidableEq

/-- Accumulator of the per-group member loop (`dashboard.py`
lines 369-408). -/
structure GroupAcc : Type where
  chats : Nat
  files : Nat
  images : Nat
  knowledge : Nat
  messages : Nat
  storage : ℚ
deriving DecidableEq

/-- One iteration of `for user_id in group.user_ids` (`dashboard.py`
lines 378-408): re-query the member's counts, classify the member's files,
and accumulate counts and storage. -/
def groupStep (s : Store) (acc : GroupAcc) (uid : String) : GroupAcc :=
  { chats := acc.chats + userChatsCount s uid
    files := acc.files + (userFiles s uid).length
    images := acc.images + countImages (userFiles s uid)
    knowledge := acc.knowledge + userKnowledgeCount s uid
    messages := acc.messages + userMessagesCount s uid
    storage := acc.storage + userStorageMB s uid }

/-- One entry of `group_stats` (`dashboard.py` lines 368-420).  The
`if group.user_ids:` guard is the fold over the (possibly empty) member
list; `member_count` is `len(group.user_ids) if group.user_ids else 0`. -/
def groupEntry (s : Store) (g : GroupRec) : GroupStats :=
  let acc := g.user_ids.foldl (groupStep s) ⟨0, 0, 0, 0, 0, 0⟩
  { group_id := g.id
    group_name := g.name
    member_count := g.user_ids.length
    total_chats := acc.chats
    total_files := acc.files
    total_images := acc.images
    total_knowledge := acc.knowledge
    total_messages := acc.messages
    storage_usage_mb := round2 acc.storage }

/-- Sort key for groups: `total_chats + total_files + total_images +
total_knowledge` (`dashboard.py` lines 268, 423). -/
def groupActivityKey (gs : GroupStats) : Nat :=
  gs.total_chats + gs.total_files + gs.total_images + gs.total_knowledge

/-- `group_stats[:limit] if limit else group_stats` (`dashboard.py`
line 424): `limit = 0` (falsy) or no limit returns the whole list. -/
def pyTruncate {α : Type} (limit : Option Nat) (l : List α) : List α :=
  match limit with
  | some n => if n = 0 then l else l.take n
  | none => l

/-- The `/groups/activity` endpoint body (`get_groups_activity_stats`,
`dashboard.py` lines 364-424). -/
def groupsActivityStats (s : Store) (limit : Option Nat) : List GroupStats :=
  pyTruncate limit (sortKeyDesc groupActivityKey (s.groups.map (groupEntry s)))

/-- `total_images` over the whole store (`dashboard.py` lines 113-119 /
445-451). -/
def totalImages (s : Store) : Nat := countImages s.files

/-- `files_storage_mb` over the whole store (`dashboard.py` lines 125-128 /
454-457). -/
def filesStorageMB (s : Store) : ℚ := filesStorageOf s.files

/-- `knowledge_storage_mb = total_knowledge * 1`. -/
def knowledgeStorageMB (s : Store) : ℚ := (s.knowledge.length : ℚ) * 1

/-- `chats_storage_mb = total_chats * 0.1`. -/
def chatsStorageMB (s : Store) : ℚ := (s.chats.length : ℚ) * (1 / 10)

/-- `messages_storage_mb = total_messages * 0.01`. -/
def messagesStorageMB (s : Store) : ℚ := (s.messages.length : ℚ) * (1 / 100)

/-- `total_storage_mb = files_storage_mb + knowledge_storage_mb +
chats_storage_mb + messages_storage_mb` (`dashboard.py` line 136). -/
def totalStorageMB (s : Store) : ℚ :=
  filesStorageMB s + knowledgeStorageMB s + chatsStorageMB s
    + messagesStorageMB s

/-- One element of the `content_types` list literal. -/
structure CTEntry : Type where
  type : String
  count : Nat
  storage : ℚ
deriving DecidableEq

/-- The `content_types` list (`dashboard.py` lines 139-145 / 463-469): the
images storage figure is `files_storage_mb * 0.3`. -/
def contentTypes (s : Store) : List CTEntry :=
  [ ⟨"chats", s.chats.length, chatsStorageMB s⟩,
    ⟨"files", s.files.length, filesStorageMB s⟩,
    ⟨"images", totalImages s, filesStorageMB s * (3 / 10)⟩,
    ⟨"knowledge", s.knowledge.length, knowledgeStorageMB s⟩,
    ⟨"messages", s.messages.length, messagesStorageMB s⟩ ]

/-- `total_content = sum(ct["count"] for ct in content_types)`. -/
def totalContent (s : Store) : Nat :=
  ((contentTypes s).map (fun ct => ct.count)).sum

structure ContentTypeStats : Type where
  content_type : String
  count : Nat
  percentage : ℚ
  total_size_mb : ℚ
deriving DecidableEq

/-- One `ContentTypeStats` row (`dashboard.py` lines 150-157 / 474-481):
`percentage = (count / total_content * 100) if total_content > 0 else 0`,
both figures rounded at construction. -/
def mkContentTypeStats (total : Nat) (ct : CTEntry) : ContentTypeStats :=
  { content_type := ct.type
    count := ct.count
    percentage := round2 (if 0 < total then (ct.count : ℚ) / (total : ℚ) * 100 else 0)
    total_size_mb := round2 ct.storage }

/-- The content-type breakdown, shared verbatim between
`get_dashboard_overview` (lines 138-157) and `get_content_type_statistics`
(lines 438-481). -/
def contentTypeBreakdown (s : Store) : List ContentTypeStats :=
  (contentTypes s).map (mkContentTypeStats (totalContent s))

structure DashboardOverview : Type where
  total_users : Nat
  active_users_7d : Nat
  active_users_30d : Nat
  total_chats : Nat
  total_files : Nat
  total_images : Nat
  total_knowledge : Nat
  total_messages : Nat
  total_storage_mb : ℚ
  content_type_breakdown : List ContentTypeStats
  top_users_by_storage : List UserStorageStats
  top_groups_by_activity : List GroupStats
deriving DecidableEq

/-- The `/overview` endpoint body (`get_dashboard_overview`,
`dashboard.py` lines 88-284); `now` is `int(time.time())`. -/
def dashboardOverview (now : Int) (s : Store) : DashboardOverview :=
  { total_users := s.users.length
    active_users_7d :=
      (s.users.filter
        (fun u => decide (now - 7 * 24 * 60 * 60 ≤ u.last_active_at))).length
    active_users_30d :=
      (s.users.filter
        (fun u => decide (now - 30 * 24 * 60 * 60 ≤ u.last_active_at))).length
    total_chats := s.chats.length
    total_files := s.files.length
    total_images := totalImages s
    total_knowledge := s.knowledge.length
    total_messages := s.messages.length
    total_storage_mb := round2 (totalStorageMB s)
    content_type_breakdown := contentTypeBreakdown s
    top_users_by_storage :=
      (sortKeyDesc (fun e => e.storage_usage_mb)
        (s.users.map (userStorageEntry s))).take 10
    top_groups_by_activity :=
      (sortKeyDesc groupActivityKey (s.groups.map (groupEntry s))).take 10 }

/-- One row of the time series.  `period_start`/`period_end` are the
half-open filter bounds (seconds) computed at `dashboard.py` lines 531-532;
the response's `period` label is the calendar date of `period_start`
(calendar formatting is outside the model).  `knowledge_created` is
computed (line 554) and feeds the storage figure but is not a response
field. -/
structure TimeRangeStats : Type where
  period_start : Int
  period_end : Int
  chats_created : Nat
  files_uploaded : Nat
  images_generated : Nat
  messages_sent : Nat
  storage_used_mb : ℚ
deriving DecidableEq

/-- One loop iteration of `for i in range(days)` (`dashboard.py`
lines 530-592): counts over the half-open window
`[period_start, period_start + 24*60*60)`, message bounds converted to
nanoseconds (lines 558-564), and the bucket's storage estimate. -/
def bucketFor (s : Store) (period_start : Int) : TimeRangeStats :=
  let period_end := period_start + 24 * 60 * 60
  let chats_created :=
    (s.chats.filter (fun c =>
      decide (period_start ≤ c.created_at) && decide (c.created_at < period_end))).length
  let period_files :=
    s.files.filter (fun f =>
      decide (period_start ≤ f.created_at) && decide (f.created_at < period_end))
  let knowledge_created :=
    (s.knowledge.filter (fun k =>
      decide (period_start ≤ k.created_at) && decide (k.created_at < period_end))).length
  let messages_sent :=
    (s.messages.filter (fun m =>
      decide (period_start * 1000000000 ≤ m.created_at)
        && decide (m.created_at < period_end * 1000000000))).length
  { period_start := period_start
    period_end := period_end
    chats_created := chats_created
    files_uploaded := period_files.length
    images_generated := countImages period_files
    messages_sent := messages_sent
    storage_used_mb :=
      round2 (filesStorageOf period_files
        + (knowledge_created : ℚ) * 1
        + (chats_created : ℚ) * (1 / 10)
        + (messages_sent : ℚ) * (1 / 100)) }

/-- The bucket list for a validated period of `days` days
(`dashboard.py` lines 514-515, 530-592):
`start_time = now - days*24*60*60`, then one bucket per
`i in range(days)` starting at `start_time + i*24*60*60`. -/
def timeSeriesData (days : Nat) (now : Int) (s : Store) :
    List TimeRangeStats :=
  (List.range days).map
    (fun (i : Nat) => bucketFor s (now - (days : Int) * 24 * 60 * 60
      + (i : Int) * (24 * 60 * 60)))

/-- `raise HTTPException(status_code=..., detail=...)`. -/
structure HTTPErr : Type where
  status_code : Nat
  detail : String
deriving DecidableEq

/-- The `if period == "7d" ... elif ... else raise` chain
(`dashboard.py` lines 502-512). -/
def parsePeriodDays : String → Option Nat
  | "7d" => some 7
  | "30d" => some 30
  | "90d" => some 90
  | _ => none

/-- The body of the `try:` block of `get_time_series_statistics`
(`dashboard.py` lines 498-594).  An invalid period raises the
HTTP 400 before any store query runs (the debug reads at lines 518-528
are effect-free and come after validation). -/
def tryGetTimeSeries (period : String) (now : Int) (s : Store) :
    Except HTTPErr (List TimeRangeStats) :=
  match parsePeriodDays period with
  | some days => Except.ok (timeSeriesData days now s)
  | none => Except.error ⟨400, "Invalid period. Use 7d, 30d, or 90d"⟩

/-- The `/time-series` endpoint as the caller sees it (`dashboard.py`
lines 492-601): the blanket `except Exception` at line 596 catches every
exception raised in the `try:` body — including the `HTTPException(400)`
for an invalid period, since `HTTPException` subclasses `Exception` —
and replaces it with the generic HTTP 500. -/
def getTimeSeriesStatistics (period : String) (now : Int) (s : Store) :
    Except HTTPErr (List TimeRangeStats) :=
  match tryGetTimeSeries period now s with
  | Except.ok v => Except.ok v
  | Except.error _ =>
      Except.error ⟨500, "Failed to get time series statistics"⟩

/-! ## Helper lemmas -/

theorem addFileSize_eq (a : ℚ) (f : FileRec) :
    addFileSize a f = a + metaSizeMB f.meta := by
  unfold addFileSize metaSizeMB
  rcases f.meta with _ | mv
  · simp
  · rcases mv with _ | ⟨ct, sz⟩
    · simp
    · rcases sz with _ | q <;> simp

theorem foldl_addFileSize (fs : List FileRec) (a : ℚ) :
    fs.foldl addFileSize a = a + (fs.map (fun f => metaSizeMB f.meta)).sum := by
  induction fs generalizing a with
  | nil => simp
  | cons f fs ih =>
    simp only [List.foldl_cons, List.map_cons, List.sum_cons, ih,
      addFileSize_eq, add_assoc]

theorem filesStorageOf_eq_sum (fs : List FileRec) :
    filesStorageOf fs = (fs.map (fun f => metaSizeMB f.meta)).sum := by
  simpa using foldl_addFileSize fs 0

theorem round2_nonneg {q : ℚ} (h : 0 ≤ q) : 0 ≤ round2 q := by
  unfold round2
  have h1 : (0 : ℤ) ≤ round (q * 100) := by
    rw [round_eq]
    exact Int.le_floor.mpr (by push_cast; linarith)
  positivity

theorem abs_round2_sub (q : ℚ) : |round2 q - q| ≤ 1 / 200 := by
  have h := abs_sub_round (q * 100)
  rw [abs_sub_comm] at h
  have : round2 q - q = ((round (q * 100) : ℚ) - q * 100) / 100 := by
    unfold round2; ring
  rw [this, abs_div, abs_of_pos (by norm_num : (0 : ℚ) < 100)]
  linarith

theorem filesStorageOf_nonneg {fs : List FileRec}
    (h : ∀ f ∈ fs, 0 ≤ metaSizeMB f.meta) : 0 ≤ filesStorageOf fs := by
  rw [filesStorageOf_eq_sum]
  refine List.sum_nonneg ?_
  intro x hx
  obtain ⟨f, hf, rfl⟩ := List.mem_map.mp hx
  exact h f hf

/-- All declared file sizes in the store are non-negative. -/
def SizesNonneg (s : Store) : Prop :=
  ∀ f ∈ s.files, 0 ≤ metaSizeMB f.meta

theorem userStorageMB_nonneg {s : Store} (h : SizesNonneg s) (uid : String) :
    0 ≤ userStorageMB s uid := by
  unfold userStorageMB
  have h1 : 0 ≤ filesStorageOf (userFiles s uid) := by
    refine filesStorageOf_nonneg ?_
    intro f hf
    exact h f (List.mem_filter.mp hf).1
  have h2 : (0 : ℚ) ≤ (userKnowledgeCount s uid : ℚ) := Nat.cast_nonneg _
  have h3 : (0 : ℚ) ≤ (userChatsCount s uid : ℚ) := Nat.cast_nonneg _
  have h4 : (0 : ℚ) ≤ (userMessagesCount s uid : ℚ) := Nat.cast_nonneg _
  nlinarith

theorem groupFold_eq (s : Store) (uids : List String) (acc : GroupAcc) :
    uids.foldl (groupStep s) acc =
      { chats := acc.chats + (uids.map (userChatsCount s)).sum
        files := acc.files + (uids.map (fun u => (userFiles s u).length)).sum
        images := acc.images
          + (uids.map (fun u => countImages (userFiles s u))).sum
        knowledge := acc.knowledge + (uids.map (userKnowledgeCount s)).sum
        messages := acc.messages + (uids.map (userMessagesCount s)).sum
        storage := acc.storage + (uids.map (userStorageMB s)).sum } := by
  induction uids generalizing acc with
  | nil => simp
  | cons u us ih =>
    simp only [List.foldl_cons, List.map_cons, List.sum_cons, ih, groupStep,
      add_assoc]

theorem sortKeyDesc_perm {α β : Type} [LinearOrder β] (key : α → β)
    (l : List α) : List.Perm (sortKeyDesc key l) l :=
  List.perm_insertionSort _ l

theorem sortKeyDesc_sorted {α β : Type} [LinearOrder β] (key : α → β)
    (l : List α) :
    (sortKeyDesc key l).Sorted (fun a b => key b ≤ key a) := by
  haveI : IsTotal α (fun a b => key b ≤ key a) :=
    ⟨fun a b => le_total (key b) (key a)⟩
  haveI : IsTrans α (fun a b => key b ≤ key a) :=
    ⟨fun _ _ _ h1 h2 => le_trans h2 h1⟩
  exact List.sorted_insertionSort _ l

theorem sortKeyDesc_filter {α β : Type} [LinearOrder β] (key : α → β)
    (l : List α) (v : β) :
    (sortKeyDesc key l).filter (fun x => decide (key x = v)) =
      l.filter (fun x => decide (key x = v)) := by
  have hperm : List.Perm
      ((sortKeyDesc key l).filter (fun x => decide (key x = v)))
      (l.filter (fun x => decide (key x = v))) :=
    (sortKeyDesc_perm key l).filter _
  have hpair : (l.filter (fun x => decide (key x = v))).Pairwise
      (fun a b => key b ≤ key a) := by
    refine List.pairwise_of_forall_mem_list ?_
    intro a ha b hb
    have hav : key a = v := by simpa using (List.mem_filter.mp ha).2
    have hbv : key b = v := by simpa using (List.mem_filter.mp hb).2
    rw [hav, hbv]
  have hsub : List.Sublist (l.filter (fun x => decide (key x = v)))
      (sortKeyDesc key l) :=
    List.sublist_insertionSort hpair (List.filter_sublist l)
  have hsub2 : List.Sublist (l.filter (fun x => decide (key x = v)))
      ((sortKeyDesc key l).filter (fun x => decide (key x = v))) := by
    have := hsub.filter (fun x => decide (key x = v))
    rwa [List.filter_filter, show
      (fun x => decide (key x = v) && decide (key x = v)) =
        (fun x => decide (key x = v)) by funext x; cases decide (key x = v) <;> rfl]
      at this
  exact (hsub2.eq_of_length (hperm.length_eq.symm)).symm

/-! ## Claims -/

/-- C5: the file classifier returns image (`true`) exactly when the file's
metadata is present, is a mapping, and its `content_type` value is one of
the four literal strings `image/png`, `image/jpeg`, `image/gif`,
`image/webp`; for absent metadata, non-mapping metadata, a missing
`content_type` key, or any other value it returns not-an-image (`false`).
The classifier is a total Lean function, so it never throws: every
malformed-metadata shape falls into the catch-all `false` branch. -/
theorem c5_classifier_image_iff (m : Option MetaVal) :
    metaIsImage m = true ↔
      ∃ ct sz, m = some (MetaVal.dict (some ct) sz) ∧
        (ct = "image/png" ∨ ct = "image/jpeg" ∨ ct = "image/gif" ∨
          ct = "image/webp") := by
  cases m with
  | none => simp [metaIsImage]
  | some mv =>
    cases mv with
    | notDict => simp [metaIsImage]
    | dict ct sz =>
      cases ct with
      | none => simp [metaIsImage]
      | some c =>
        constructor
        · intro h
          have hc : c = "image/png" ∨ c = "image/jpeg" ∨ c = "image/gif"
              ∨ c = "image/webp" := by
            simpa [metaIsImage, imageContentTypes, List.contains] using h
          exact ⟨c, sz, rfl, hc⟩
        · rintro ⟨ct, sz2, heq, hct⟩
          have hcct : c = ct ∧ sz = sz2 := by simpa using heq
          obtain ⟨rfl, rfl⟩ := hcct
          rcases hct with rfl | rfl | rfl | rfl <;>
            simp [metaIsImage, imageContentTypes, List.contains]

/-- Declared byte size of a file (metadata key `size`), `0` when absent:
the spec-side quantity `files_mb` is the sum of these divided by
1,048,576. -/
def declaredSizeBytes (f : FileRec) : ℚ :=
  match f.meta with
  | some (MetaVal.dict _ (some size)) => size
  | _ => 0

/-- The specification's estimator formula for one user's total MB
(spec §4.2/§8): `round(files_mb + knowledge×1 + chats×0.1 +
messages×0.01, 2)` with `files_mb` the unrounded sum of declared byte
sizes divided by 1,048,576, rounded exactly once at the end. -/
def specUserTotalMB (files : List FileRec)
    (knowledge chats messages : Nat) : ℚ :=
  round2 ((files.map declaredSizeBytes).sum / 1048576
    + (knowledge : ℚ) * 1 + (chats : ℚ) * (1 / 10)
    + (messages : ℚ) * (1 / 100))

theorem metaSizeMB_eq_declared (f : FileRec) :
    metaSizeMB f.meta = declaredSizeBytes f / 1048576 := by
  unfold metaSizeMB declaredSizeBytes
  rcases f.meta with _ | mv
  · simp
  · rcases mv with _ | ⟨ct, sz⟩
    · simp
    · rcases sz with _ | q
      · simp
      · norm_num

theorem sum_metaSizeMB (fs : List FileRec) :
    (fs.map (fun f => metaSizeMB f.meta)).sum =
      (fs.map declaredSizeBytes).sum / 1048576 := by
  induction fs with
  | nil => simp
  | cons f fs ih =>
    rw [List.map_cons, List.sum_cons, ih, List.map_cons, List.sum_cons,
      metaSizeMB_eq_declared, add_div]

/-- C3: the reported per-user storage MB equals
`round(files_mb + knowledge×1 + chats×0.1 + messages×0.01, 2)` where
`files_mb` is the unrounded sum of declared byte sizes divided by
1,048,576, files without a declared size contribute 0, and rounding is
applied exactly once at the end (the code's per-file division distributes
over the exact-rational sum). -/
theorem c3_user_storage_formula (s : Store) (u : UserRec) :
    (userStorageEntry s u).storage_usage_mb =
      specUserTotalMB (userFiles s u.id) (userKnowledgeCount s u.id)
        (userChatsCount s u.id) (userMessagesCount s u.id) := by
  unfold userStorageEntry specUserTotalMB userStorageMB
  rw [filesStorageOf_eq_sum, sum_metaSizeMB]

/-- C7: for every group, each per-category count is the sum over the
group's member user ids of that member's per-category count, and the
reported storage MB is the (once-rounded) sum over members of each
member's unrounded storage estimate.  Each summand depends only on the
member's user id and the store — not on the group — so a user who belongs
to two groups contributes identical amounts to both (no deduplication
across groups). -/
theorem c7_group_member_sums (s : Store) (g : GroupRec) :
    (groupEntry s g).total_chats = (g.user_ids.map (userChatsCount s)).sum ∧
    (groupEntry s g).total_files =
      (g.user_ids.map (fun u => (userFiles s u).length)).sum ∧
    (groupEntry s g).total_images =
      (g.user_ids.map (fun u => countImages (userFiles s u))).sum ∧
    (groupEntry s g).total_knowledge =
      (g.user_ids.map (userKnowledgeCount s)).sum ∧
    (groupEntry s g).total_messages =
      (g.user_ids.map (userMessagesCount s)).sum ∧
    (groupEntry s g).storage_usage_mb =
      round2 ((g.user_ids.map (userStorageMB s)).sum) ∧
    (groupEntry s g).member_count = g.user_ids.length := by
  unfold groupEntry
  rw [groupFold_eq]
  simp

/-- C2 counterexample: in a store holding a single 1 MiB file and nothing
else, the five reported category figures are `[0, 1, 0.3, 0, 0]` MB
(sum `1.3`), but the reported total is `1` MB: the total omits the images
figure, so it does not equal the sum of the five category figures. -/
theorem c2_counterexample :
    ((contentTypeBreakdown
        { users := [], groups := [], chats := [],
          files := [{ user_id := "u", created_at := 0,
                      meta := some (MetaVal.dict none (some 1048576)) }],
          knowledge := [], messages := [] }).map
      (fun ct => ct.total_size_mb)).sum ≠
    (dashboardOverview 0
        { users := [], groups := [], chats := [],
          files := [{ user_id := "u", created_at := 0,
                      meta := some (MetaVal.dict none (some 1048576)) }],
          knowledge := [], messages := [] }).total_storage_mb := by
  norm_num [contentTypeBreakdown, contentTypes, mkContentTypeStats,
    totalContent, chatsStorageMB, filesStorageMB, knowledgeStorageMB,
    messagesStorageMB, filesStorageOf, addFileSize, totalImages,
    countImages, metaIsImage, dashboardOverview, totalStorageMB,
    round2, round_eq]

/-- C2 amended: the total estimated storage MB equals the once-rounded sum
of the four unrounded category figures for chats, files, knowledge and
messages — the images figure (which is 0.3 times the files figure) is
excluded from the total. -/
theorem c2_total_is_sum_of_four (now : Int) (s : Store) :
    (dashboardOverview now s).total_storage_mb =
      round2 (((contentTypes s).filter
        (fun ct => ct.type ≠ "images")).map (fun ct => ct.storage)).sum ∧
    (contentTypes s).map (fun ct => ct.storage) =
      [chatsStorageMB s, filesStorageMB s, filesStorageMB s * (3 / 10),
        knowledgeStorageMB s, messagesStorageMB s] := by
  constructor
  · show round2 (totalStorageMB s) = _
    unfold totalStorageMB
    congr 1
    simp [contentTypes]
    ring
  · simp [contentTypes]

theorem round2_zero : round2 0 = 0 := by
  unfold round2
  norm_num

theorem takeLimit_subset {α : Type} (limit : Option Nat) (l : List α) :
    ∀ a ∈ takeLimit limit l, a ∈ l := by
  cases limit with
  | none => intro a ha; exact ha
  | some n => intro a ha; exact (List.take_sublist n l).subset ha

theorem pyTruncate_subset {α : Type} (limit : Option Nat) (l : List α) :
    ∀ a ∈ pyTruncate limit l, a ∈ l := by
  cases limit with
  | none => intro a ha; exact ha
  | some n =>
    intro a ha
    have hrw : pyTruncate (some n) l = if n = 0 then l else l.take n := rfl
    rw [hrw] at ha
    by_cases h : n = 0
    · rwa [if_pos h] at ha
    · rw [if_neg h] at ha
      exact (List.take_sublist n l).subset ha

theorem userEntry_storage_nonneg {s : Store} (h : SizesNonneg s)
    (u : UserRec) : 0 ≤ (userStorageEntry s u).storage_usage_mb :=
  round2_nonneg (userStorageMB_nonneg h u.id)

theorem groupEntry_storage_nonneg {s : Store} (h : SizesNonneg s)
    (g : GroupRec) : 0 ≤ (groupEntry s g).storage_usage_mb := by
  unfold groupEntry
  rw [groupFold_eq]
  refine round2_nonneg ?_
  have hsum : 0 ≤ (g.user_ids.map (userStorageMB s)).sum := by
    refine List.sum_nonneg ?_
    intro x hx
    obtain ⟨uid, _, rfl⟩ := List.mem_map.mp hx
    exact userStorageMB_nonneg h uid
  simpa using hsum

theorem bucketFor_storage_nonneg {s : Store} (h : SizesNonneg s) (t : Int) :
    0 ≤ (bucketFor s t).storage_used_mb := by
  unfold bucketFor
  refine round2_nonneg ?_
  have h1 : 0 ≤ filesStorageOf (s.files.filter (fun f =>
      decide (t ≤ f.created_at)
        && decide (f.created_at < t + 24 * 60 * 60))) := by
    refine filesStorageOf_nonneg ?_
    intro f hf
    exact h f (List.mem_filter.mp hf).1
  have h2 : (0 : ℚ) ≤ ((s.knowledge.filter (fun k =>
      decide (t ≤ k.created_at)
        && decide (k.created_at < t + 24 * 60 * 60))).length : ℚ) :=
    Nat.cast_nonneg _
  have h3 : (0 : ℚ) ≤ ((s.chats.filter (fun c =>
      decide (t ≤ c.created_at)
        && decide (c.created_at < t + 24 * 60 * 60))).length : ℚ) :=
    Nat.cast_nonneg _
  have h4 : (0 : ℚ) ≤ ((s.messages.filter (fun m =>
      decide (t * 1000000000 ≤ m.created_at)
        && decide (m.created_at < (t + 24 * 60 * 60) * 1000000000))).length
      : ℚ) :=
    Nat.cast_nonneg _
  refine add_nonneg (add_nonneg (add_nonneg h1 ?_) ?_) ?_ <;> positivity

theorem contentTypes_storage_nonneg {s : Store} (h : SizesNonneg s) :
    ∀ ct ∈ contentTypes s, 0 ≤ ct.storage := by
  have hf : 0 ≤ filesStorageMB s := filesStorageOf_nonneg h
  intro ct hct
  simp only [contentTypes, List.mem_cons, List.not_mem_nil, or_false] at hct
  rcases hct with rfl | rfl | rfl | rfl | rfl
  · unfold chatsStorageMB; positivity
  · exact hf
  · positivity
  · unfold knowledgeStorageMB; positivity
  · unfold messagesStorageMB; positivity

/-- C4 counterexample: a store whose single file declares the (malformed)
byte size `-1048576` makes the reported overview total `-1` MB: the code
never clamps declared sizes, so the claim fails for such a store state. -/
theorem c4_counterexample :
    (dashboardOverview 0
      { users := [], groups := [], chats := [],
        files := [{ user_id := "u", created_at := 0,
                    meta := some (MetaVal.dict none (some (-1048576))) }],
        knowledge := [], messages := [] }).total_storage_mb < 0 := by
  norm_num [dashboardOverview, totalStorageMB, chatsStorageMB,
    filesStorageMB, knowledgeStorageMB, messagesStorageMB, filesStorageOf,
    addFileSize, round2, round_eq]

/-- C4 amended: every estimated MB figure produced by any operation — the
per-category breakdown figures, the overview total, the per-user listing,
the per-group listing, the overview top lists, and the time-series
buckets — is non-negative for every store state in which every declared
file size is non-negative (the code performs no clamping, so the
restriction to non-negative declared sizes is necessary). -/
theorem c4_all_mb_nonneg (s : Store) (h : SizesNonneg s) (now : Int)
    (limit : Option Nat) (days : Nat) :
    (∀ ct ∈ contentTypeBreakdown s, 0 ≤ ct.total_size_mb) ∧
    0 ≤ (dashboardOverview now s).total_storage_mb ∧
    (∀ e ∈ usersStorageStats s limit, 0 ≤ e.storage_usage_mb) ∧
    (∀ ge ∈ groupsActivityStats s limit, 0 ≤ ge.storage_usage_mb) ∧
    (∀ e ∈ (dashboardOverview now s).top_users_by_storage,
      0 ≤ e.storage_usage_mb) ∧
    (∀ ge ∈ (dashboardOverview now s).top_groups_by_activity,
      0 ≤ ge.storage_usage_mb) ∧
    (∀ b ∈ timeSeriesData days now s, 0 ≤ b.storage_used_mb) := by
  refine ⟨?_, ?_, ?_, ?_, ?_, ?_, ?_⟩
  · intro ct hct
    obtain ⟨e, he, rfl⟩ := List.mem_map.mp hct
    exact round2_nonneg (contentTypes_storage_nonneg h e he)
  · refine round2_nonneg ?_
    unfold totalStorageMB
    have hf : 0 ≤ filesStorageMB s := filesStorageOf_nonneg h
    have hk : 0 ≤ knowledgeStorageMB s := by
      unfold knowledgeStorageMB; positivity
    have hc : 0 ≤ chatsStorageMB s := by
      unfold chatsStorageMB; positivity
    have hm : 0 ≤ messagesStorageMB s := by
      unfold messagesStorageMB; positivity
    linarith
  · intro e he
    unfold usersStorageStats at he
    have he2 : e ∈ (takeLimit limit s.users).map (userStorageEntry s) :=
      (sortKeyDesc_perm (fun e => e.storage_usage_mb) _).mem_iff.mp he
    obtain ⟨u, _, rfl⟩ := List.mem_map.mp he2
    exact userEntry_storage_nonneg h u
  · intro ge hge
    unfold groupsActivityStats at hge
    have hge2 : ge ∈ sortKeyDesc groupActivityKey
        (s.groups.map (groupEntry s)) :=
      pyTruncate_subset limit _ ge hge
    have hge3 : ge ∈ s.groups.map (groupEntry s) :=
      (sortKeyDesc_perm groupActivityKey _).mem_iff.mp hge2
    obtain ⟨g, _, rfl⟩ := List.mem_map.mp hge3
    exact groupEntry_storage_nonneg h g
  · intro e he
    unfold dashboardOverview at he
    have he2 : e ∈ sortKeyDesc (fun e => e.storage_usage_mb)
        (s.users.map (userStorageEntry s)) :=
      (List.take_sublist 10 _).subset he
    have he3 : e ∈ s.users.map (userStorageEntry s) :=
      (sortKeyDesc_perm (fun e => e.storage_usage_mb) _).mem_iff.mp he2
    obtain ⟨u, _, rfl⟩ := List.mem_map.mp he3
    exact userEntry_storage_nonneg h u
  · intro ge hge
    unfold dashboardOverview at hge
    have hge2 : ge ∈ sortKeyDesc groupActivityKey
        (s.groups.map (groupEntry s)) :=
      (List.take_sublist 10 _).subset hge
    have hge3 : ge ∈ s.groups.map (groupEntry s) :=
      (sortKeyDesc_perm groupActivityKey _).mem_iff.mp hge2
    obtain ⟨g, _, rfl⟩ := List.mem_map.mp hge3
    exact groupEntry_storage_nonneg h g
  · intro b hb
    unfold timeSeriesData at hb
    obtain ⟨i, _, rfl⟩ := List.mem_map.mp hb
    exact bucketFor_storage_nonneg h _

/-- C4 witness: the amended theorem applied to a concrete store (one chat,
one message, one file without a declared size) whose sizes are trivially
non-negative. -/
theorem c4_witness :
    0 ≤ (dashboardOverview 0
      { users := [⟨"u", "n", "e", 0⟩], groups := [],
        chats := [⟨"u", 0⟩],
        files := [{ user_id := "u", created_at := 0, meta := none }],
        knowledge := [], messages := [⟨"u", 0⟩] }).total_storage_mb :=
  (c4_all_mb_nonneg _
    (by intro f hf; simp only [List.mem_singleton] at hf
        subst hf; simp [metaSizeMB])
    0 (some 50) 7).2.1

theorem totalContent_cast (s : Store) :
    (s.chats.length : ℚ) + (s.files.length : ℚ) + (totalImages s : ℚ)
      + (s.knowledge.length : ℚ) + (s.messages.length : ℚ)
      = (totalContent s : ℚ) := by
  unfold totalContent contentTypes
  push_cast
  simp
  ring

/-- C6: when the total count across the five categories is positive, the
five reported (rounded) percentages sum to 100 within the claimed
tolerance (the proof gives the sharper bound 5 × 0.005 = 0.025 ≤ 0.05);
when the total count is zero, the guard makes all five percentages 0 and
the division is never taken. -/
theorem c6_percentages_sum (s : Store) :
    (0 < totalContent s →
      |((contentTypeBreakdown s).map (fun ct => ct.percentage)).sum - 100|
        ≤ 1 / 20) ∧
    (totalContent s = 0 →
      (contentTypeBreakdown s).map (fun ct => ct.percentage)
        = [0, 0, 0, 0, 0]) := by
  constructor
  · intro hT
    have hTQ : (0 : ℚ) < (totalContent s : ℚ) := by exact_mod_cast hT
    have hexp : ((contentTypeBreakdown s).map (fun ct => ct.percentage)).sum
        = round2 ((s.chats.length : ℚ) / (totalContent s : ℚ) * 100)
          + round2 ((s.files.length : ℚ) / (totalContent s : ℚ) * 100)
          + round2 ((totalImages s : ℚ) / (totalContent s : ℚ) * 100)
          + round2 ((s.knowledge.length : ℚ) / (totalContent s : ℚ) * 100)
          + round2 ((s.messages.length : ℚ) / (totalContent s : ℚ) * 100) := by
      simp only [contentTypeBreakdown, contentTypes, List.map_cons,
        List.map_nil, List.sum_cons, List.sum_nil, mkContentTypeStats,
        if_pos hT]
      ring
    have hsum : (s.chats.length : ℚ) / (totalContent s : ℚ) * 100
        + (s.files.length : ℚ) / (totalContent s : ℚ) * 100
        + (totalImages s : ℚ) / (totalContent s : ℚ) * 100
        + (s.knowledge.length : ℚ) / (totalContent s : ℚ) * 100
        + (s.messages.length : ℚ) / (totalContent s : ℚ) * 100 = 100 := by
      have hc := totalContent_cast s
      field_simp
      linarith
    have e1 := abs_le.mp (abs_round2_sub
      ((s.chats.length : ℚ) / (totalContent s : ℚ) * 100))
    have e2 := abs_le.mp (abs_round2_sub
      ((s.files.length : ℚ) / (totalContent s : ℚ) * 100))
    have e3 := abs_le.mp (abs_round2_sub
      ((totalImages s : ℚ) / (totalContent s : ℚ) * 100))
    have e4 := abs_le.mp (abs_round2_sub
      ((s.knowledge.length : ℚ) / (totalContent s : ℚ) * 100))
    have e5 := abs_le.mp (abs_round2_sub
      ((s.messages.length : ℚ) / (totalContent s : ℚ) * 100))
    rw [hexp, abs_le]
    constructor <;> linarith
  · intro hT
    simp [contentTypeBreakdown, contentTypes, mkContentTypeStats, hT,
      round2_zero]

/-- C6 witness: a store with one chat and nothing else has positive total
count, and its percentage sum is within tolerance of 100. -/
theorem c6_witness :
    0 < totalContent
      { users := [], groups := [], chats := [⟨"u", 0⟩], files := [],
        knowledge := [], messages := [] } ∧
    |((contentTypeBreakdown
        { users := [], groups := [], chats := [⟨"u", 0⟩], files := [],
          knowledge := [], messages := [] }).map
      (fun ct => ct.percentage)).sum - 100| ≤ 1 / 20 := by
  have h : 0 < totalContent
      { users := [], groups := [], chats := [⟨"u", 0⟩], files := [],
        knowledge := [], messages := [] } := by
    simp [totalContent, contentTypes]
  exact ⟨h, (c6_percentages_sum _).1 h⟩

/-- C8: the per-user storage listing is the entry list of the fetched
users sorted descending by `storage_usage_mb` with a stable sort: the
output is a permutation of the input entries, it is pairwise descending in
`storage_usage_mb`, and for every value `v` the subsequence of entries
whose MB equals `v` appears in the output in exactly its original fetch
order. -/
theorem c8_users_sorted_stable (s : Store) (limit : Option Nat) :
    List.Perm (usersStorageStats s limit)
      ((takeLimit limit s.users).map (userStorageEntry s)) ∧
    (usersStorageStats s limit).Sorted
      (fun a b => b.storage_usage_mb ≤ a.storage_usage_mb) ∧
    ∀ v : ℚ, (usersStorageStats s limit).filter
        (fun e => decide (e.storage_usage_mb = v)) =
      ((takeLimit limit s.users).map (userStorageEntry s)).filter
        (fun e => decide (e.storage_usage_mb = v)) := by
  unfold usersStorageStats
  exact ⟨sortKeyDesc_perm _ _, sortKeyDesc_sorted _ _,
    fun v => sortKeyDesc_filter _ _ v⟩

/-- C10: the caller-supplied limit caps which users are fetched before any
statistics are computed or sorted: the output is a permutation of the
entries of the first `N` users in fetch order (sorted among themselves
only), and a user whose id is not among the first `N` fetched never
appears in the output — regardless of how large their storage would
be. -/
theorem c10_limit_caps_fetch (s : Store) (N : Nat) :
    List.Perm (usersStorageStats s (some N))
      ((s.users.take N).map (userStorageEntry s)) ∧
    (∀ uid : String, uid ∉ (s.users.take N).map (fun u => u.id) →
      ∀ e ∈ usersStorageStats s (some N), e.user_id ≠ uid) := by
  have hperm : List.Perm (usersStorageStats s (some N))
      ((s.users.take N).map (userStorageEntry s)) := by
    unfold usersStorageStats
    exact sortKeyDesc_perm _ _
  refine ⟨hperm, ?_⟩
  intro uid huid e he heq
  have he2 : e ∈ (s.users.take N).map (userStorageEntry s) :=
    hperm.mem_iff.mp he
  obtain ⟨u, hu, rfl⟩ := List.mem_map.mp he2
  exact huid (List.mem_map.mpr ⟨u, hu, heq⟩)

/-- Concrete two-user store for the C10 witness: user `b` (second in fetch
order) owns a message, so their storage exceeds user `a`'s, yet a limit of
1 excludes them. -/
def twoUserStore : Store :=
  { users := [⟨"a", "na", "ea", 0⟩, ⟨"b", "nb", "eb", 0⟩]
    groups := []
    chats := []
    files := []
    knowledge := []
    messages := [⟨"b", 0⟩] }

/-- C10 witness: with limit 1 on `twoUserStore`, the single returned entry
is user `a`'s, not user `b`'s. -/
theorem c10_witness :
    (userStorageEntry twoUserStore ⟨"a", "na", "ea", 0⟩).user_id ≠ "b" :=
  (c10_limit_caps_fetch twoUserStore 1).2 "b" (by decide)
    (userStorageEntry twoUserStore ⟨"a", "na", "ea", 0⟩)
    (List.mem_singleton.mpr rfl)

/-- C9: with period `7d` the validated time series has exactly 7 buckets;
bucket `i` starts at `now − 7·24h + i·24h` and ends 24 hours later
(half-open window), so the buckets are oldest-first, each spans exactly 24
hours, and consecutive buckets abut with no gaps or overlaps; each
bucket's chat count is the number of chats created inside its half-open
window. -/
theorem c9_seven_day_buckets (now : Int) (s : Store) :
    tryGetTimeSeries "7d" now s = Except.ok (timeSeriesData 7 now s) ∧
    (timeSeriesData 7 now s).length = 7 ∧
    (∀ i : Nat, i < 7 →
      (timeSeriesData 7 now s)[i]? = some (bucketFor s
        (now - 7 * (24 * 60 * 60) + (i : Int) * (24 * 60 * 60)))) ∧
    (∀ t : Int,
      (bucketFor s t).period_start = t ∧
      (bucketFor s t).period_end = t + 24 * 60 * 60 ∧
      (bucketFor s t).chats_created = (s.chats.filter (fun c =>
        decide (t ≤ c.created_at)
          && decide (c.created_at < t + 24 * 60 * 60))).length) ∧
    (∀ i : Nat, i + 1 < 7 →
      now - 7 * (24 * 60 * 60) + ((i + 1 : Nat) : Int) * (24 * 60 * 60)
        = (now - 7 * (24 * 60 * 60) + (i : Int) * (24 * 60 * 60))
          + 24 * 60 * 60) := by
  refine ⟨rfl, by simp [timeSeriesData], ?_, ?_, ?_⟩
  · intro i hi
    simp only [timeSeriesData, List.getElem?_map, List.getElem?_range, hi,
      if_pos, Option.map_some]
    congr 2
  · intro t
    exact ⟨rfl, rfl, rfl⟩
  · intro i hi
    push_cast
    ring

/-- C9 witness: the bucket facts instantiated on the empty store at
`now = 0`, bucket index 2. -/
theorem c9_witness :
    (timeSeriesData 7 0 ⟨[], [], [], [], [], []⟩).length = 7 ∧
    (timeSeriesData 7 0 ⟨[], [], [], [], [], []⟩)[2]? =
      some (bucketFor ⟨[], [], [], [], [], []⟩
        (0 - 7 * (24 * 60 * 60) + ((2 : Nat) : Int) * (24 * 60 * 60))) :=
  ⟨(c9_seven_day_buckets 0 _).2.1,
    (c9_seven_day_buckets 0 _).2.2.1 2 (by decide)⟩

/-- C1 (code bug): for the invalid period `60d`, the `raise
HTTPException(400, "Invalid period...")` is caught by the function's own
blanket `except Exception` handler (HTTPException subclasses Exception),
so the caller receives the generic internal-error 500, not the distinct
validation error; the result is independent of the store, so no data
access is attempted. -/
theorem c1_invalid_period_generic_500 (now : Int) (s s2 : Store) :
    getTimeSeriesStatistics "60d" now s =
      Except.error ⟨500, "Failed to get time series statistics"⟩ ∧
    getTimeSeriesStatistics "60d" now s =
      getTimeSeriesStatistics "60d" now s2 :=
  ⟨rfl, rfl⟩

end Dashboard

